import Mathlib

/-!
Verification of the FAERS data-quality and safety-signal analytics engine.

This file gives a shallow embedding, in Lean, of the analytics functions of the
repository (the PRR signal engines of app.py and demo_signal_detection.py, the
completeness and per-case quality scorer, the outcome classifier, and the
temporal anomaly detector), together with theorems settling the frozen claims.

Modelling conventions:
- pandas tables are lists of records; a missing value (NaN) in a column is
  an Option that is none;
- python float arithmetic on the statistics is modelled over the rationals;
- numpy division, which yields NaN instead of raising when the denominator is
  zero (the repository suppresses the accompanying warning), is modelled by an
  Option-valued division returning none;
- merge key equality is modelled as requiring both caseid values to be
  present and equal; pandas itself also matches NaN join keys to each other,
  a case no statement below depends on: every concrete snapshot uses present
  keys and the universal theorems quantify over the merged table;
- DataFrame.sort_values with ascending false computes a stable ascending
  argsort and reverses it (pandas nargsort), so it is modelled as a stable
  insertion sort followed by reverse; for the concrete tables used below the
  underlying numpy sort (fewer than 16 rows, insertion sort) is stable, so the
  model agrees with the library on these inputs;
- python code paths that raise are modelled with Except.
-/

namespace FAERS

/-- Record of the demographics (Case) table DEMO: one adverse-event report.
The receipt and event dates are stored already parsed (the raw-file parsing
collaborator is out of scope); none models NaN or an unparseable date, which
pandas to_datetime with errors equal to coerce turns into NaT. -/
structure DemoRow where
  primaryid : Int
  caseid : Option Int
  fda_dt : Option Nat
  event_dt : Option Nat
  age : Option ℚ
  sex : Option String
  reporter_country : Option String
  occp_cod : Option String
  rept_cod : Option String
deriving Repr, DecidableEq

/-- Record of the DRUG table: (case keys, drug name, role code). -/
structure DrugRow where
  primaryid : Int
  caseid : Option Int
  drugname : String
  role_cod : String
deriving Repr, DecidableEq

/-- Record of the REAC table: (case keys, reaction preferred term). -/
structure ReacRow where
  primaryid : Int
  caseid : Option Int
  pt : String
deriving Repr, DecidableEq

/-- Record of the OUTC table: (case keys, outcome code). -/
structure OutcRow where
  primaryid : Int
  caseid : Option Int
  outc_cod : Option String
deriving Repr, DecidableEq

/-- Row of the derived drug-reaction co-occurrence table, the inner merge of
DRUG and REAC on (primaryid, caseid). -/
structure CoRow where
  drugname : String
  role_cod : String
  pt : String
deriving Repr, DecidableEq

/-- Key equality used for the merges on columns (primaryid, caseid). The
model treats a missing caseid as matching nothing; pandas itself also joins
NaN keys to each other, a simplification immaterial here because every
concrete snapshot below carries present keys and the universal theorems
quantify over the merged table rather than over this predicate. -/
def keyMatch (p1 : Int) (c1 : Option Int) (p2 : Int) (c2 : Option Int) : Bool :=
  p1 == p2 && match c1, c2 with
  | some a, some b => a == b
  | _, _ => false

/-- Inner merge of the DRUG and REAC tables on (primaryid, caseid); pandas
preserves left (drug) row order and, within one left row, right row order. -/
def mergeDrugReac (drugT : List DrugRow) (reacT : List ReacRow) : List CoRow :=
  drugT.flatMap fun dr =>
    (reacT.filter fun r => keyMatch dr.primaryid dr.caseid r.primaryid r.caseid).map
      fun r => { drugname := dr.drugname, role_cod := dr.role_cod, pt := r.pt }

/-- Primary-suspect drug-reaction co-occurrence table: the merge restricted to
rows whose role code is PS. -/
def coOccurrence (drugT : List DrugRow) (reacT : List ReacRow) : List CoRow :=
  (mergeDrugReac drugT reacT).filter fun r => r.role_cod == "PS"

/-- Number of co-occurrence rows of one exact (drug, reaction) pair: the entry
of the groupby on (drugname, pt) sizes, with zero default for an absent key. -/
def pairCount (co : List CoRow) (dr rx : String) : Nat :=
  (co.filter fun r => r.drugname == dr && r.pt == rx).length

/-- Number of co-occurrence rows of one drug across all reactions: the entry
of the groupby on drugname sizes, with zero default. -/
def drugTotal (co : List CoRow) (dr : String) : Nat :=
  (co.filter fun r => r.drugname == dr).length

/-- Number of co-occurrence rows of one reaction across all drugs. -/
def reactionTotal (co : List CoRow) (rx : String) : Nat :=
  (co.filter fun r => r.pt == rx).length

/-- Cell a of the per-pair table scan of the demo engine: rows with this drug
and this reaction. -/
def scanA (co : List CoRow) (dr rx : String) : Nat :=
  (co.filter fun r => r.drugname == dr && r.pt == rx).length

/-- Cell b of the per-pair table scan of the demo engine: rows with this drug
and another reaction. -/
def scanB (co : List CoRow) (dr rx : String) : Nat :=
  (co.filter fun r => r.drugname == dr && !(r.pt == rx)).length

/-- Cell c of the per-pair table scan of the demo engine: rows with another
drug and this reaction. -/
def scanC (co : List CoRow) (dr rx : String) : Nat :=
  (co.filter fun r => !(r.drugname == dr) && r.pt == rx).length

/-- Contingency cells of the aggregate-map engine of app.py (lines 193-200):
a from the pair-count map, b and c from the per-drug and per-reaction totals,
and d = totalCoOccurrenceRows - a - b - c. -/
def appCells (co : List CoRow) (dr rx : String) : Int × Int × Int × Int :=
  let a : Int := pairCount co dr rx
  let b : Int := (drugTotal co dr : Int) - a
  let c : Int := (reactionTotal co rx : Int) - a
  let d : Int := (co.length : Int) - a - b - c
  (a, b, c, d)

/-- Contingency cells of the scan engine of demo_signal_detection.py (lines
115-133): a, b, c by filtering the full co-occurrence table, and
d = total_cases - a - b - c, with total_cases the Case-table row count. -/
def demoCells (co : List CoRow) (nCases : Nat) (dr rx : String) :
    Int × Int × Int × Int :=
  let a : Int := scanA co dr rx
  let b : Int := scanB co dr rx
  let c : Int := scanC co dr rx
  let d : Int := (nCases : Int) - a - b - c
  (a, b, c, d)

/-- Distinct values of a column in order of first appearance. -/
def firstAppearance {α : Type} [DecidableEq α] (l : List α) : List α :=
  l.foldl (fun acc x => if x ∈ acc then acc else acc ++ [x]) []

/-- Insertion of one element into an ascending list, before the first element
it compares at most equal to; keeps earlier-inserted equal elements after it. -/
def insertAsc {α : Type} (le : α → α → Bool) (x : α) : List α → List α
  | [] => [x]
  | y :: t => if le x y then x :: y :: t else y :: insertAsc le x t

/-- Stable ascending sort (insertion sort): equal elements keep their input
order, matching the stable ascending argsort the pandas sorts boil down to at
the sizes used here. -/
def stableSortAsc {α : Type} (le : α → α → Bool) : List α → List α
  | [] => []
  | x :: t => insertAsc le x (stableSortAsc le t)

/-- Series.value_counts index order: distinct values sorted by count
descending (pandas sorts the counts ascending with a stable sort and reverses
the order). -/
def valueCountsDesc (l : List String) : List String :=
  (stableSortAsc (fun a b => l.count a ≤ l.count b) (firstAppearance l)).reverse

/-- Scope of the signal engines: the topN most frequent drug names of the
co-occurrence table, via value_counts followed by head. -/
def topDrugsOf (drugT : List DrugRow) (reacT : List ReacRow) (topN : Nat) :
    List String :=
  (valueCountsDesc ((coOccurrence drugT reacT).map fun r => r.drugname)).take topN

/-- Scope of the signal engines: the topM most frequent reaction terms. -/
def topReactionsOf (drugT : List DrugRow) (reacT : List ReacRow) (topM : Nat) :
    List String :=
  (valueCountsDesc ((coOccurrence drugT reacT).map fun r => r.pt)).take topM

/-- Emitted safety signal: one row of the signals result set. -/
structure Signal where
  drug : String
  reaction : String
  prr : ℚ
  chi2 : ℚ
  cases : Int
  signal_strength : String
deriving Repr, DecidableEq

/-- Comparison used for the ascending argsort of the signals on the prr
column. -/
def prrLe (s t : Signal) : Bool := s.prr ≤ t.prr

/-- Positivity guard of both engines on the cells (b, c, d) of a contingency
tuple (a, b, c, d): the source condition b greater 0 and c greater 0 and
d greater 0. -/
abbrev posCells (t : Int × Int × Int × Int) : Prop :=
  0 < t.2.1 ∧ 0 < t.2.2.1 ∧ 0 < t.2.2.2

/-- PRR of a contingency tuple: (a over b) over (c over d). -/
def prrOf (t : Int × Int × Int × Int) : ℚ :=
  ((t.1 : ℚ) / (t.2.1 : ℚ)) / ((t.2.2.1 : ℚ) / (t.2.2.2 : ℚ))

/-- PRR as written in app.py line 203, with its redundant conditional: the
quotient when c times b is positive, else 0 (under the positivity guard the
conditional is always taken). -/
def appPrrOf (t : Int × Int × Int × Int) : ℚ :=
  if 0 < t.2.2.1 * t.2.1 then prrOf t else 0

/-- Chi-square statistic of a contingency tuple: the Case-table row count
times the squared determinant over the four margin products. In app.py a zero
denominator is caught and replaced by 0, which rational division by zero also
yields; in the demo engine the denominator is positive whenever the guard
holds, so the bare division never raises. -/
def chi2Of (nCases : Nat) (t : Int × Int × Int × Int) : ℚ :=
  (nCases : ℚ) * ((t.1 * t.2.2.2 - t.2.1 * t.2.2.1 : Int) : ℚ) ^ 2 /
    (((t.1 + t.2.1) * (t.2.2.1 + t.2.2.2) * (t.1 + t.2.2.1) * (t.2.1 + t.2.2.2) : Int) : ℚ)

/-- Signal record emitted by both engines: strength is Strong when PRR is at
least 5, else Moderate. -/
def mkSignal (dr rx : String) (prr chi2 : ℚ) (a : Int) : Signal :=
  { drug := dr, reaction := rx, prr := prr, chi2 := chi2, cases := a,
    signal_strength := if 5 ≤ prr then "Strong" else "Moderate" }

/-- DataFrame.sort_values on prr with ascending false: pandas nargsort computes
the ascending argsort and reverses it, so ties end up in reverse input order;
modelled as a stable merge sort followed by reverse. -/
def pandasSortDesc (l : List Signal) : List Signal :=
  (stableSortAsc prrLe l).reverse

/-- Inner double loop of calculate_prr_signals of app.py (lines 187-219):
skip drugs with zero total, skip pairs under the minimum-case threshold before
building the remaining cells, guard b, c, d positive, compute PRR and
chi-square (the try/except around the chi-square division returns 0 on a zero
denominator, which rational division by zero also yields), and emit when both
thresholds are met. -/
def appSignalsFor (co : List CoRow) (nCases : Nat) (topD topR : List String)
    (minCases : Nat) (prrThr chi2Thr : ℚ) : List Signal :=
  topD.flatMap fun drug =>
    if drugTotal co drug = 0 then []
    else topR.filterMap fun reaction =>
      if pairCount co drug reaction < minCases then none
      else if posCells (appCells co drug reaction) then
        if prrThr ≤ appPrrOf (appCells co drug reaction) ∧
            chi2Thr ≤ chi2Of nCases (appCells co drug reaction) then
          some (mkSignal drug reaction (appPrrOf (appCells co drug reaction))
            (chi2Of nCases (appCells co drug reaction)) (appCells co drug reaction).1)
        else none
      else none

/-- Inner double loop of calculate_prr of demo_signal_detection.py (lines
112-151): per-pair table scans for a, b, c, the d cell from the Case-table
count, the same positivity guard, PRR, and chi-square (the denominator is
positive whenever reached, see the guard, so the bare division never raises). -/
def demoSignalsFor (co : List CoRow) (nCases : Nat) (topD topR : List String)
    (minCases : Nat) (prrThr chi2Thr : ℚ) : List Signal :=
  topD.flatMap fun drug =>
    topR.filterMap fun reaction =>
      if scanA co drug reaction < minCases then none
      else if posCells (demoCells co nCases drug reaction) then
        if prrThr ≤ prrOf (demoCells co nCases drug reaction) ∧
            chi2Thr ≤ chi2Of nCases (demoCells co nCases drug reaction) then
          some (mkSignal drug reaction (prrOf (demoCells co nCases drug reaction))
            (chi2Of nCases (demoCells co nCases drug reaction))
            (demoCells co nCases drug reaction).1)
        else none
      else none

/-- Signal list accumulated by the app.py engine before the final sort,
with the scope sizes and thresholds as explicit parameters. -/
def appEmitted (drugT : List DrugRow) (reacT : List ReacRow)
    (demoT : List DemoRow) (topN topM minCases : Nat) (prrThr chi2Thr : ℚ) :
    List Signal :=
  appSignalsFor (coOccurrence drugT reacT) demoT.length
    (topDrugsOf drugT reacT topN) (topReactionsOf drugT reacT topM)
    minCases prrThr chi2Thr

/-- Signal list accumulated by the demo engine before the final sort. -/
def demoEmitted (drugT : List DrugRow) (reacT : List ReacRow)
    (demoT : List DemoRow) (topN topM minCases : Nat) (prrThr chi2Thr : ℚ) :
    List Signal :=
  demoSignalsFor (coOccurrence drugT reacT) demoT.length
    (topDrugsOf drugT reacT topN) (topReactionsOf drugT reacT topM)
    minCases prrThr chi2Thr

/-- calculate_prr_signals of app.py with scope sizes and thresholds as
parameters: sort the emitted signals by PRR descending, returning an empty
result when no signal was emitted (the explicit guard of line 221). -/
def calculate_prr_signalsP (drugT : List DrugRow) (reacT : List ReacRow)
    (demoT : List DemoRow) (topN topM minCases : Nat) (prrThr chi2Thr : ℚ) :
    List Signal :=
  if (appEmitted drugT reacT demoT topN topM minCases prrThr chi2Thr).isEmpty
  then []
  else pandasSortDesc (appEmitted drugT reacT demoT topN topM minCases prrThr chi2Thr)

/-- calculate_prr_signals of app.py with its hardcoded scope (top 20 drugs by
30 reactions) and demo-mode thresholds PRR at least 1.3 and chi-square at
least 1.5; min_cases is the parameter with default 2. -/
def calculate_prr_signals (drugT : List DrugRow) (reacT : List ReacRow)
    (demoT : List DemoRow) (minCases : Nat) : List Signal :=
  calculate_prr_signalsP drugT reacT demoT 20 30 minCases (13/10) (3/2)

/-- calculate_prr of demo_signal_detection.py with scope sizes and thresholds
as parameters. When the signal list is empty, line 154 builds a DataFrame with
no columns and sort_values on prr raises a KeyError, modelled as an error
value; otherwise the sorted signals are returned. -/
def calculate_prrP (drugT : List DrugRow) (reacT : List ReacRow)
    (demoT : List DemoRow) (topN topM minCases : Nat) (prrThr chi2Thr : ℚ) :
    Except String (List Signal) :=
  if (demoEmitted drugT reacT demoT topN topM minCases prrThr chi2Thr).isEmpty
  then Except.error "KeyError: prr"
  else Except.ok
    (pandasSortDesc (demoEmitted drugT reacT demoT topN topM minCases prrThr chi2Thr))

/-- calculate_prr of demo_signal_detection.py with its hardcoded scope (top 50
drugs by 100 reactions) and standard thresholds PRR at least 2 and chi-square
at least 4; min_cases is the parameter with default 3. -/
def calculate_prr (drugT : List DrugRow) (reacT : List ReacRow)
    (demoT : List DemoRow) (minCases : Nat) : Except String (List Signal) :=
  calculate_prrP drugT reacT demoT 50 100 minCases 2 4

/-- Predicate holding of every signal of a successful engine run; an error
result has no signals. -/
def allOk (r : Except String (List Signal)) (p : Signal → Bool) : Bool :=
  match r with
  | Except.ok l => l.all p
  | Except.error _ => true

/-- Division as performed by numpy on the statistics: a zero denominator
yields NaN (the repository suppresses the warning), modelled as none. A
present result is the exact quotient. -/
def npDiv (x y : ℚ) : Option ℚ :=
  if y = 0 then none else some (x / y)

/-- Critical fields of the completeness assessment with their presence
predicates, in the order of calculate_completeness of app.py (lines 128-136). -/
def criticalFields7 : List (String × (DemoRow → Bool)) :=
  [("Case ID", fun d => d.caseid.isSome),
   ("FDA Receipt Date", fun d => d.fda_dt.isSome),
   ("Event Date", fun d => d.event_dt.isSome),
   ("Age", fun d => d.age.isSome),
   ("Sex", fun d => d.sex.isSome),
   ("Reporter Country", fun d => d.reporter_country.isSome),
   ("Report Code", fun d => d.rept_cod.isSome)]

/-- calculate_completeness of app.py (lines 126-145): per critical field,
the non-null count over the total case count times 100. On an empty table the
numpy quotient 0/0 is NaN (none); no exception is raised. -/
def calculate_completeness (demoT : List DemoRow) : List (String × Option ℚ) :=
  criticalFields7.map fun f =>
    (f.1, (npDiv ((demoT.countP f.2 : Nat) : ℚ) ((demoT.length : Nat) : ℚ)).map
      fun q => q * 100)

/-- Number of present values among the five critical fields of the per-case
quality score (caseid, fda_dt, age, sex, reporter_country). -/
def notnaCount5 (d : DemoRow) : Nat :=
  (if d.caseid.isSome then 1 else 0) + (if d.fda_dt.isSome then 1 else 0) +
  (if d.age.isSome then 1 else 0) + (if d.sex.isSome then 1 else 0) +
  (if d.reporter_country.isSome then 1 else 0)

/-- Completeness component of the per-case quality score: present critical
fields over 5 times 40 points. -/
def completeness_component (d : DemoRow) : ℚ :=
  (notnaCount5 d : ℚ) / 5 * 40

/-- Age-validity component as computed by the source (demo_data_quality.py
lines 210-212 and app.py lines 553-555): start from 20, zero it when age is
missing, zero it when age exceeds 120. A pandas comparison of NaN with 120 is
false, so only those two assignments apply. -/
def age_valid (d : DemoRow) : ℚ :=
  match d.age with
  | none => 0
  | some a => if a > 120 then 0 else 20

/-- Date-validity component: a flat 20 for every case in the source. -/
def date_valid (_ : DemoRow) : ℚ := 20

/-- Reporter-information component: 10 points for a present reporter country
plus 10 for a present occupation code. -/
def reporter_info (d : DemoRow) : ℚ :=
  (if d.reporter_country.isSome then 1 else 0) * 10 +
  (if d.occp_cod.isSome then 1 else 0) * 10

/-- Composite per-case quality score: row sum of the four components. -/
def total_score (d : DemoRow) : ℚ :=
  completeness_component d + age_valid d + date_valid d + reporter_info d

/-- Per-case quality scores of the whole Case table
(calculate_case_quality_score of demo_data_quality.py, lines 195-236, and the
inline block of show_data_quality of app.py, lines 550-561). -/
def case_quality_scores (demoT : List DemoRow) : List ℚ :=
  demoT.map total_score

/-- Age-validity component as the claim and the specification state it:
20 exactly when age is present and within 0 to 120, else 0. -/
def age_valid_claim (d : DemoRow) : ℚ :=
  match d.age with
  | none => 0
  | some a => if 0 ≤ a ∧ a ≤ 120 then 20 else 0

/-- Key match of the left merge of the Case table with the OUTC table. -/
def outcKeyMatch (d : DemoRow) (o : OutcRow) : Bool :=
  keyMatch d.primaryid d.caseid o.primaryid o.caseid

/-- Left merge of the Case table with the OUTC table on (primaryid, caseid):
a case with k matching outcome rows yields k merged rows; a case with none
yields a single row with a null outcome code. -/
def mergeCasesOutcomes (demoT : List DemoRow) (outcT : List OutcRow) :
    List (DemoRow × Option String) :=
  demoT.flatMap fun d =>
    if (outcT.filter fun o => outcKeyMatch d o).isEmpty then [(d, none)]
    else (outcT.filter fun o => outcKeyMatch d o).map fun o => (d, o.outc_cod)

/-- Count of merged rows whose outcome code equals one serious code
(the boolean-sum of both identify_serious_outcomes and analyze_outcomes). -/
def countOutcome (demoT : List DemoRow) (outcT : List OutcRow) (code : String) :
    Nat :=
  (mergeCasesOutcomes demoT outcT).countP fun r => r.2 == some code

/-- Serious outcome codes with their category names. -/
def seriousCodes : List (String × String) :=
  [("DE", "Death"), ("LT", "Life-Threatening"), ("HO", "Hospitalization"),
   ("DS", "Disability"), ("CA", "Congenital Anomaly"),
   ("RI", "Required Intervention")]

/-- analyze_outcomes of app.py (lines 224-242): category name to matching-row
count over the left merge. -/
def analyze_outcomes (demoT : List DemoRow) (outcT : List OutcRow) :
    List (String × Nat) :=
  seriousCodes.map fun c => (c.2, countOutcome demoT outcT c.1)

/-- Per-category percentage as printed by show_signal_detection of app.py
(line 706): count over the Case-table row count times 100. -/
def appOutcomeRate (demoT : List DemoRow) (outcT : List OutcRow) (code : String) :
    ℚ :=
  ((countOutcome demoT outcT code : Nat) : ℚ) / ((demoT.length : Nat) : ℚ) * 100

/-- Per-category percentage as printed by identify_serious_outcomes of
demo_signal_detection.py (line 207): count over the row count of the merged
frame times 100. -/
def demoOutcomeRate (demoT : List DemoRow) (outcT : List OutcRow) (code : String) :
    ℚ :=
  ((countOutcome demoT outcT code : Nat) : ℚ) /
    (((mergeCasesOutcomes demoT outcT).length : Nat) : ℚ) * 100

/-- Parsed receipt dates of the Case table; groupby drops the NaT rows. -/
def parsedDates (demoT : List DemoRow) : List Nat :=
  demoT.filterMap fun d => d.fda_dt

/-- Distinct report dates in ascending calendar order (groupby sorts keys). -/
def distinctDates (demoT : List DemoRow) : List Nat :=
  stableSortAsc (fun a b => a ≤ b) (firstAppearance (parsedDates demoT))

/-- Daily report counts: (date, number of cases received that date),
ascending by date. -/
def dailyCounts (demoT : List DemoRow) : List (Nat × Nat) :=
  (distinctDates demoT).map fun day => (day, (parsedDates demoT).count day)

/-- Count column of the daily series. -/
def countsSeries (demoT : List DemoRow) : List Nat :=
  (dailyCounts demoT).map fun p => p.2

/-- Mean of the daily counts. -/
def seriesMean (l : List Nat) : ℚ :=
  ((l.sum : Nat) : ℚ) / ((l.length : Nat) : ℚ)

/-- Sample variance of the daily counts (pandas std uses ddof 1, so a series
of fewer than 2 observations has standard deviation NaN, modelled as none). -/
def sampleVar (l : List Nat) : Option ℚ :=
  if l.length < 2 then none
  else some ((l.map fun c => ((c : ℚ) - seriesMean l) ^ 2).sum / ((l.length : ℚ) - 1))

/-- Squared z-score of one daily count. The float pipeline computes
z = (count - mean) / std and flags on the absolute value exceeding 3; since
std is a square root, the embedding tracks z squared, for which that test is
z squared exceeding 9. A NaN standard deviation, or the NaN arising from the
division by a zero standard deviation, is none. -/
def zScoreSq (l : List Nat) (c : Nat) : Option ℚ :=
  (sampleVar l).bind fun v => npDiv (((c : ℚ) - seriesMean l) ^ 2) v

/-- Anomaly flag of one day: absolute z-score strictly above 3; any NaN
comparison is false. -/
def isAnomalyDay (l : List Nat) (c : Nat) : Bool :=
  match zScoreSq l c with
  | none => false
  | some z2 => 9 < z2

/-- detect_anomalies of app.py (lines 148-166) and
detect_anomalies_in_reporting_patterns of demo_data_quality.py (lines
131-167): the daily series with the per-day anomaly flag. -/
def detect_anomalies (demoT : List DemoRow) : List (Nat × Nat × Bool) :=
  (dailyCounts demoT).map fun p => (p.1, p.2, isAnomalyDay (countsSeries demoT) p.2)

/-- Case row with every optional field absent, used to populate Case tables
whose individual fields are irrelevant to a statement. -/
def blankCase (i : Int) : DemoRow :=
  { primaryid := i, caseid := some i, fda_dt := none, event_dt := none,
    age := none, sex := none, reporter_country := none, occp_cod := none,
    rept_cod := none }

/-- Drug and reaction tables realizing a given multiset of (drug, reaction)
co-occurrence pairs: pair i gets its own case key i, one PS drug row and one
reaction row, so the merge yields exactly one co-occurrence row per pair. -/
def drugTableOf (pairs : List (String × String)) : List DrugRow :=
  ((List.range pairs.length).zip pairs).map fun ip =>
    { primaryid := (ip.1 : Int), caseid := some (ip.1 : Int),
      drugname := ip.2.1, role_cod := "PS" }

/-- Reaction table counterpart of drugTableOf. -/
def reacTableOf (pairs : List (String × String)) : List ReacRow :=
  ((List.range pairs.length).zip pairs).map fun ip =>
    { primaryid := (ip.1 : Int), caseid := some (ip.1 : Int), pt := ip.2.2 }

/-- Co-occurrence pairs of the C1 counterexample: four rows of one pair. -/
def c1pairs : List (String × String) := [("D", "R"), ("D", "R"), ("D", "R"), ("D", "R")]

/-- Drug table of the C1 counterexample. -/
def c1drug : List DrugRow := drugTableOf c1pairs

/-- Reaction table of the C1 counterexample. -/
def c1reac : List ReacRow := reacTableOf c1pairs

/-- Case table of the C1 counterexample: three cases, so the Case-table count
differs from the four co-occurrence rows. -/
def c1demo : List DemoRow := (List.range 3).map fun i => blankCase (i : Int)

/-- Case table of the C2 scenario: two cases. -/
def c2demo : List DemoRow := [blankCase 1, blankCase 2]

/-- Outcome table of the C2 scenario: case 1 has both a Death and a
Hospitalization outcome row; case 2 has none. -/
def c2outc : List OutcRow :=
  [{ primaryid := 1, caseid := some 1, outc_cod := some "DE" },
   { primaryid := 1, caseid := some 1, outc_cod := some "HO" }]

/-- Case of the C3 failing input: age present and negative, every other
optional field absent. -/
def c3case : DemoRow :=
  { primaryid := 1, caseid := some 1, fda_dt := none, event_dt := none,
    age := some (-5), sex := none, reporter_country := none, occp_cod := none,
    rept_cod := none }

/-- Case table of the C4 counterexample; its drug and reaction tables are
empty, so the co-occurrence table is empty. -/
def c4demo : List DemoRow := [blankCase 1]

/-- Co-occurrence pairs of the C5 counterexample: twenty rows over three drugs
and four reactions, built so that exactly three signals are emitted, two of
which tie at PRR 3 with case counts 2 and 3. -/
def c5pairs : List (String × String) :=
  [("F", "R1"), ("F", "R1"), ("F", "R1"), ("F", "R1"),
   ("F", "R2"), ("F", "R2"), ("F", "R2"),
   ("F", "S"), ("F", "S"),
   ("F", "U"), ("F", "U"),
   ("D2", "R2"), ("D2", "R2"), ("D2", "R2"),
   ("D2", "S"), ("D2", "S"),
   ("D1", "R1"), ("D1", "R1"),
   ("D1", "R2"), ("D1", "R2")]

/-- Drug table of the C5 counterexample. -/
def c5drug : List DrugRow := drugTableOf c5pairs

/-- Reaction table of the C5 counterexample. -/
def c5reac : List ReacRow := reacTableOf c5pairs

/-- Case table of the C5 counterexample: forty cases. -/
def c5demo : List DemoRow := List.replicate 40 (blankCase 0)

/-- Co-occurrence pairs of the C6 counterexample: ten rows over two drugs and
two reactions. -/
def c6pairs : List (String × String) :=
  [("D", "R"), ("D", "R"), ("D", "R"), ("D", "S"), ("E", "R"),
   ("E", "S"), ("E", "S"), ("E", "S"), ("E", "S"), ("E", "S")]

/-- Drug table of the C6 snapshots. -/
def c6drug : List DrugRow := drugTableOf c6pairs

/-- Reaction table of the C6 snapshots. -/
def c6reac : List ReacRow := reacTableOf c6pairs

/-- Case table of the C6 counterexample: eight cases, differing from the ten
co-occurrence rows. -/
def c6demo8 : List DemoRow := List.replicate 8 (blankCase 0)

/-- Case table of the C6 witness: ten cases, equal to the co-occurrence row
count. -/
def c6demo10 : List DemoRow := List.replicate 10 (blankCase 0)

/-- Case table of the C9 witness: two cases on two distinct days, one report
each, so the daily series has zero variance. -/
def c9demo : List DemoRow :=
  [{ blankCase 1 with fda_dt := some 100 },
   { blankCase 2 with fda_dt := some 200 }]

/-- Projection of a signal to the fields the ordering claim speaks about:
drug, reaction, PRR, observed case count. -/
def sigProj (s : Signal) : String × String × ℚ × Int :=
  (s.drug, s.reaction, s.prr, s.cases)

/-- Ordering the sort claim asserts between two projected signals: strictly
larger PRR first, and on a PRR tie the larger case count first. -/
abbrev claimTie (x y : String × String × ℚ × Int) : Prop :=
  y.2.2.1 < x.2.2.1 ∨ (x.2.2.1 = y.2.2.1 ∧ y.2.2.2 ≤ x.2.2.2)

/-- Splitting a filtered count by a second predicate: the rows satisfying p
are exactly those satisfying p and q plus those satisfying p and not q. -/
theorem filter_and_split {α : Type} (l : List α) (p q : α → Bool) :
    (l.filter fun a => p a && q a).length + (l.filter fun a => p a && !q a).length =
      (l.filter p).length := by
  induction l with
  | nil => simp
  | cons x t ih =>
    rcases hp : p x <;> rcases hq : q x <;>
      simp [List.filter_cons, hp, hq] <;> omega

/-- The pair count and the scan of rows with this drug and another reaction
partition the rows of this drug. -/
theorem scanB_add (co : List CoRow) (dr rx : String) :
    pairCount co dr rx + scanB co dr rx = drugTotal co dr := by
  exact filter_and_split co (fun r => r.drugname == dr) (fun r => r.pt == rx)

/-- The pair count and the scan of rows with another drug and this reaction
partition the rows of this reaction. -/
theorem scanC_add (co : List CoRow) (dr rx : String) :
    pairCount co dr rx + scanC co dr rx = reactionTotal co rx := by
  have base := filter_and_split co (fun r => r.pt == rx) (fun r => r.drugname == dr)
  have e1 : (co.filter fun r => r.pt == rx && r.drugname == dr) =
      (co.filter fun r => r.drugname == dr && r.pt == rx) :=
    List.filter_congr fun x _ => Bool.and_comm _ _
  have e2 : (co.filter fun r => r.pt == rx && !(r.drugname == dr)) =
      (co.filter fun r => !(r.drugname == dr) && r.pt == rx) :=
    List.filter_congr fun x _ => Bool.and_comm _ _
  unfold pairCount scanC reactionTotal
  rw [← e1, ← e2]
  exact base

/-- When the Case-table row count equals the co-occurrence row count, the
scan engine and the aggregate-map engine build the same contingency tuple for
every pair. -/
theorem demoCells_eq_appCells (co : List CoRow) (n : Nat) (dr rx : String)
    (hn : n = co.length) : demoCells co n dr rx = appCells co dr rx := by
  have h1 := scanB_add co dr rx
  have h2 := scanC_add co dr rx
  have h0 : scanA co dr rx = pairCount co dr rx := rfl
  simp only [demoCells, appCells, Prod.mk.injEq]
  refine ⟨?_, ?_, ?_, ?_⟩ <;> omega

/-- Under the positivity guard the conditional of the app.py PRR expression
is always taken. -/
theorem appPrrOf_pos {t : Int × Int × Int × Int} (h : posCells t) :
    appPrrOf t = prrOf t :=
  if_pos (mul_pos h.2.1 h.1)

/-- Core equivalence of the two engine loops: on a snapshot whose Case-table
row count equals the co-occurrence row count, the scan engine and the
aggregate-map engine emit the same signal list for any scope and thresholds. -/
theorem signalsFor_eq (co : List CoRow) (n : Nat) (topD topR : List String)
    (mc : Nat) (pThr cThr : ℚ) (hn : n = co.length) :
    demoSignalsFor co n topD topR mc pThr cThr =
      appSignalsFor co n topD topR mc pThr cThr := by
  unfold demoSignalsFor appSignalsFor
  refine congrArg (List.flatMap topD) (funext fun drug => ?_)
  by_cases h0 : drugTotal co drug = 0
  · rw [if_pos h0]
    refine List.filterMap_eq_nil_iff.mpr fun rx _ => ?_
    have h1 := scanB_add co drug rx
    have hE : scanA co drug rx = pairCount co drug rx := rfl
    have hA : scanA co drug rx = 0 := by omega
    have hB : scanB co drug rx = 0 := by omega
    rcases Nat.eq_zero_or_pos mc with hmc | hmc
    · rw [if_neg (by omega)]
      have hng : ¬ posCells (demoCells co n drug rx) := by
        simp [posCells, demoCells, hB]
      rw [if_neg hng]
    · rw [if_pos (by omega)]
  · rw [if_neg h0]
    refine congrArg (fun f => List.filterMap f topR) (funext fun rx => ?_)
    have hc := demoCells_eq_appCells co n drug rx hn
    have hsa : scanA co drug rx = pairCount co drug rx := rfl
    rw [hc, hsa]
    by_cases hp : posCells (appCells co drug rx)
    · rw [appPrrOf_pos hp]
    · rw [if_neg hp, if_neg hp]

/-- Every signal emitted by the aggregate-map loop passed the minimum-case
check on its pair count. -/
theorem mem_appSignalsFor {co : List CoRow} {n : Nat} {topD topR : List String}
    {mc : Nat} {pThr cThr : ℚ} {s : Signal}
    (hs : s ∈ appSignalsFor co n topD topR mc pThr cThr) :
    mc ≤ pairCount co s.drug s.reaction := by
  unfold appSignalsFor at hs
  rw [List.mem_flatMap] at hs
  obtain ⟨dr, _, hmem⟩ := hs
  by_cases h0 : drugTotal co dr = 0
  · rw [if_pos h0] at hmem
    cases hmem
  · rw [if_neg h0] at hmem
    rw [List.mem_filterMap] at hmem
    obtain ⟨rx, _, hbody⟩ := hmem
    split_ifs at hbody with h1 h2 h3
    injection hbody with h4
    subst h4
    simp only [mkSignal]
    omega

/-- Every signal emitted by the scan loop passed the minimum-case check on
its scanned a cell. -/
theorem mem_demoSignalsFor {co : List CoRow} {n : Nat} {topD topR : List String}
    {mc : Nat} {pThr cThr : ℚ} {s : Signal}
    (hs : s ∈ demoSignalsFor co n topD topR mc pThr cThr) :
    mc ≤ scanA co s.drug s.reaction := by
  unfold demoSignalsFor at hs
  rw [List.mem_flatMap] at hs
  obtain ⟨dr, _, hmem⟩ := hs
  rw [List.mem_filterMap] at hmem
  obtain ⟨rx, _, hbody⟩ := hmem
  split_ifs at hbody with h1 h2 h3
  injection hbody with h4
  subst h4
  simp only [mkSignal]
  omega


/-- Auxiliary bound: a flatMap whose pieces are all nonempty has at least one
row per input row. -/
theorem le_length_flatMap {α β : Type} (l : List α) (f : α → List β)
    (h : ∀ a, f a ≠ []) : l.length ≤ (l.flatMap f).length := by
  induction l with
  | nil => simp
  | cons x t ih =>
    rw [List.flatMap_cons, List.length_append, List.length_cons]
    have : 0 < (f x).length := List.length_pos.mpr (h x)
    omega

/-- Auxiliary count of one merged case block: among the merged rows of a
single case, the rows carrying one outcome code are exactly the outcome rows
matching that case with that code. -/
theorem countOutcome_head (d : DemoRow) (outcT : List OutcRow) (code : String) :
    ((if (outcT.filter fun o => outcKeyMatch d o).isEmpty
        then [(d, (none : Option String))]
        else (outcT.filter fun o => outcKeyMatch d o).map fun o => (d, o.outc_cod)).countP
      fun r => r.2 == some code) =
    outcT.countP fun o => outcKeyMatch d o && (o.outc_cod == some code) := by
  by_cases hms : (outcT.filter fun o => outcKeyMatch d o).isEmpty
  · rw [if_pos hms]
    have hnil : outcT.filter (fun o => outcKeyMatch d o) = [] := List.isEmpty_iff.mp hms
    have hcomm : (outcT.countP fun o => outcKeyMatch d o && (o.outc_cod == some code)) =
        outcT.countP fun o => (o.outc_cod == some code) && outcKeyMatch d o :=
      List.countP_congr fun x _ => by rw [Bool.and_comm]
    rw [hcomm, ← List.countP_filter, hnil, List.countP_nil]
    simp
  · rw [if_neg hms]
    rw [List.countP_map]
    show ((outcT.filter fun o => outcKeyMatch d o).countP
      fun o => o.outc_cod == some code) = _
    rw [List.countP_filter]
    exact List.countP_congr fun x _ => by rw [Bool.and_comm]

/-- Claim C1 (counterexample). In the scan-based engine variant, for the
scoped pair (D, R) of a snapshot with four co-occurrence rows but only three
cases, the cells are (4, 0, 0, -1): their sum is the Case-table count 3, not
the co-occurrence row count 4, refuting the claim that d is computed as
totalCoOccurrenceRows - a - b - c in every engine variant. -/
theorem C1_counterexample :
    "D" ∈ topDrugsOf c1drug c1reac 50 ∧
    "R" ∈ topReactionsOf c1drug c1reac 100 ∧
    ¬ (scanA (coOccurrence c1drug c1reac) "D" "R" < 3) ∧
    demoCells (coOccurrence c1drug c1reac) c1demo.length "D" "R" = (4, 0, 0, -1) ∧
    (coOccurrence c1drug c1reac).length = 4 ∧
    (4 : Int) + 0 + 0 + (-1) ≠ ((coOccurrence c1drug c1reac).length : Int) := by
  with_unfolding_all decide

/-- Claim C1 (amended). In the aggregate-map engine of app.py the contingency
cells of every pair sum to the co-occurrence row count, because d is computed
as totalCoOccurrenceRows - a - b - c; in the scan-based variant of
demo_signal_detection.py the cells sum to the Case-table row count instead,
because d there is total_cases - a - b - c. -/
theorem C1_amended (co : List CoRow) (n : Nat) (dr rx : String) :
    (appCells co dr rx).1 + (appCells co dr rx).2.1 + (appCells co dr rx).2.2.1 +
      (appCells co dr rx).2.2.2 = (co.length : Int) ∧
    (demoCells co n dr rx).1 + (demoCells co n dr rx).2.1 + (demoCells co n dr rx).2.2.1 +
      (demoCells co n dr rx).2.2.2 = (n : Int) := by
  constructor <;> simp only [appCells, demoCells] <;> ring

/-- Claim C2 (counterexample). With two cases, one of which has both a Death
and a Hospitalization outcome row, both category counts are incremented, but
the demo classifier divides by the left-join row count 3 rather than the
Case-table count 2, so its rate is not matching-row count over total case
count: the denominator does change with the number of outcome rows. -/
theorem C2_counterexample :
    (mergeCasesOutcomes c2demo c2outc).length = 3 ∧
    c2demo.length = 2 ∧
    countOutcome c2demo c2outc "DE" = 1 ∧
    countOutcome c2demo c2outc "HO" = 1 ∧
    demoOutcomeRate c2demo c2outc "DE" = 100 / 3 ∧
    appOutcomeRate c2demo c2outc "DE" = 50 ∧
    demoOutcomeRate c2demo c2outc "DE" ≠
      ((countOutcome c2demo c2outc "DE" : Nat) : ℚ) / ((c2demo.length : Nat) : ℚ) * 100 := by
  with_unfolding_all decide

/-- Claim C2 (amended). Category counts are per matching merged row, so a case
with both a Death and a Hospitalization row increments both categories; the
app.py rate divides the count by the Case-table row count, which does not
depend on the outcome table; but the demo variant divides by the left-join row
count, which is only bounded below by the case count and grows when a case has
several outcome rows. -/
theorem C2_amended (demoT : List DemoRow) (outcT : List OutcRow) :
    demoT.length ≤ (mergeCasesOutcomes demoT outcT).length ∧
    (∀ code : String, countOutcome demoT outcT code =
      (demoT.map fun d =>
        outcT.countP fun o => outcKeyMatch d o && (o.outc_cod == some code)).sum) ∧
    (∀ code : String, appOutcomeRate demoT outcT code =
      ((countOutcome demoT outcT code : Nat) : ℚ) / ((demoT.length : Nat) : ℚ) * 100) := by
  refine ⟨?_, ?_, fun code => rfl⟩
  · unfold mergeCasesOutcomes
    apply le_length_flatMap
    intro d
    by_cases hms : (outcT.filter fun o => outcKeyMatch d o).isEmpty
    · simp [hms]
    · rw [if_neg hms]
      simp only [ne_eq, List.map_eq_nil_iff]
      exact fun hc => hms (by rw [hc]; rfl)
  · intro code
    induction demoT with
    | nil => simp [countOutcome, mergeCasesOutcomes]
    | cons d t ih =>
      have hstep : countOutcome (d :: t) outcT code =
          ((if (outcT.filter fun o => outcKeyMatch d o).isEmpty
              then [(d, (none : Option String))]
              else (outcT.filter fun o => outcKeyMatch d o).map
                fun o => (d, o.outc_cod)).countP fun r => r.2 == some code) +
            countOutcome t outcT code := by
        unfold countOutcome mergeCasesOutcomes
        rw [List.flatMap_cons, List.countP_append]
      rw [hstep, countOutcome_head, List.map_cons, List.sum_cons, ih]

/-- Claim C3 (code evaluation at the failing input). A case whose age is
present and equal to -5 receives the full 20-point age-validity component from
the code, although -5 is below the valid range lower bound 0; the claim (and
the specification) require 0 here. The code only zeroes the component for a
missing age or an age above 120. -/
theorem C3_negative_age_eval :
    age_valid c3case = 20 ∧ c3case.age = some (-5) ∧ ((-5 : ℚ) < 0) := by
  decide

/-- Claim C8 (counterexample). The empty-input case of the completeness
computation is not an explicitly guarded branch: on the empty Case table the
division site is reached with the zero denominator (the table length cast to
a rational is 0), and every per-field value is exactly the unguarded numpy
quotient 0 over 0 (the NaN none) scaled by 100 - no guard precedes the
division. The empty/NaN result itself still holds, as the amended theorem
states. -/
theorem C8_counterexample :
    ((([] : List DemoRow).length : Nat) : ℚ) = 0 ∧
    npDiv 0 0 = none ∧
    calculate_completeness [] =
      criticalFields7.map fun f => (f.1, (npDiv 0 0).map fun q => q * 100) := by
  refine ⟨by norm_num, rfl, ?_⟩
  with_unfolding_all decide

/-- Claim C8 (amended). On an empty Case table the completeness computation
returns NaN (here none, the numpy quotient 0 over 0 with the warning
suppressed) for every critical field, and the per-case quality scorer returns
an empty result; both are total functions of the table, so no
division-by-zero fault is raised. This behaviour is not produced by an
explicit guarded branch: see the counterexample theorem for the proof that
the division site is reached with a zero denominator. -/
theorem C8_empty_table :
    calculate_completeness [] =
      [("Case ID", none), ("FDA Receipt Date", none), ("Event Date", none),
       ("Age", none), ("Sex", none), ("Reporter Country", none),
       ("Report Code", none)] ∧
    case_quality_scores [] = [] := by
  decide

/-- Claim C10. Every case scores between 20 and 100: the completeness
component lies in 0 to 40, the age component is 0 or 20, the reporter
component is 0, 10 or 20, and the date component is a flat 20, which makes 20
a hard lower bound. -/
theorem C10_score_bounds (d : DemoRow) :
    20 ≤ total_score d ∧ total_score d ≤ 100 := by
  have h5 : notnaCount5 d ≤ 5 := by
    unfold notnaCount5
    split_ifs <;> norm_num
  have h5q : ((notnaCount5 d : Nat) : ℚ) ≤ 5 := by exact_mod_cast h5
  have hcc1 : (0 : ℚ) ≤ completeness_component d := by
    unfold completeness_component
    positivity
  have hcc2 : completeness_component d ≤ 40 := by
    unfold completeness_component
    rw [div_mul_eq_mul_div, div_le_iff₀ (by norm_num : (0 : ℚ) < 5)]
    linarith
  have hav : age_valid d = 0 ∨ age_valid d = 20 := by
    unfold age_valid
    rcases hA : d.age with _ | a
    · simp
    · simp only []
      split_ifs <;> simp
  have hri : reporter_info d = 0 ∨ reporter_info d = 10 ∨ reporter_info d = 20 := by
    unfold reporter_info
    split_ifs <;> norm_num
  unfold total_score date_valid
  rcases hav with h | h <;> rcases hri with h2 | h2 | h2 <;> rw [h, h2] <;>
    constructor <;> linarith


/-- Membership in an insertion: the inserted element or an element of the
original list. -/
theorem mem_insertAsc {α : Type} {le : α → α → Bool} {x a : α} {l : List α} :
    a ∈ insertAsc le x l ↔ a = x ∨ a ∈ l := by
  induction l with
  | nil => simp [insertAsc]
  | cons y t ih =>
    simp only [insertAsc]
    split_ifs with h
    · simp [List.mem_cons]
    · rw [List.mem_cons, ih, List.mem_cons]
      tauto

/-- The stable sort is a permutation membership-wise. -/
theorem mem_stableSortAsc {α : Type} {le : α → α → Bool} {a : α} {l : List α} :
    a ∈ stableSortAsc le l ↔ a ∈ l := by
  induction l with
  | nil => simp [stableSortAsc]
  | cons y t ih =>
    simp only [stableSortAsc]
    rw [mem_insertAsc, ih, List.mem_cons]

/-- Inserting into an ascending list keeps it ascending, for a transitive and
total comparison. -/
theorem pairwise_insertAsc {α : Type} {le : α → α → Bool}
    (htrans : ∀ a b c, le a b = true → le b c = true → le a c = true)
    (htotal : ∀ a b, le a b = true ∨ le b a = true)
    {x : α} {l : List α} (hl : l.Pairwise fun a b => le a b = true) :
    (insertAsc le x l).Pairwise fun a b => le a b = true := by
  induction l with
  | nil => simp [insertAsc]
  | cons y t ih =>
    rcases hl with _ | ⟨hy, ht⟩
    simp only [insertAsc]
    split_ifs with h
    · refine List.Pairwise.cons ?_ (List.Pairwise.cons hy ht)
      intro b hb
      rcases List.mem_cons.mp hb with rfl | hb
      · exact h
      · exact htrans _ _ _ h (hy b hb)
    · refine List.Pairwise.cons ?_ (ih ht)
      intro b hb
      rcases mem_insertAsc.mp hb with rfl | hb
      · exact (htotal b y).resolve_left h
      · exact hy b hb

/-- The stable sort is ascending for a transitive and total comparison. -/
theorem pairwise_stableSortAsc {α : Type} {le : α → α → Bool}
    (htrans : ∀ a b c, le a b = true → le b c = true → le a c = true)
    (htotal : ∀ a b, le a b = true ∨ le b a = true) (l : List α) :
    (stableSortAsc le l).Pairwise fun a b => le a b = true := by
  induction l with
  | nil => simp [stableSortAsc]
  | cons y t ih =>
    simp only [stableSortAsc]
    exact pairwise_insertAsc htrans htotal ih

/-- Claim C4 (counterexample). On a snapshot with an empty co-occurrence table
the scan-based engine variant does not return an empty signal set: the sort of
the empty signal frame raises a KeyError (the frame has no prr column), so the
engine errors out instead. -/
theorem C4_counterexample :
    coOccurrence ([] : List DrugRow) ([] : List ReacRow) = [] ∧
    calculate_prr [] [] c4demo 3 = Except.error "KeyError: prr" := by
  constructor
  · rfl
  · rfl

/-- Claim C4 (amended). On an empty co-occurrence table, and more generally
whenever no pair meets the emission criteria, the aggregate-map engine of
app.py returns the empty signal set without error (the guard of line 221);
the scan-based variant of demo_signal_detection.py instead raises a KeyError
from sorting the empty frame. -/
theorem C4_amended (drugT : List DrugRow) (reacT : List ReacRow)
    (demoT : List DemoRow) (mc : Nat) :
    (coOccurrence drugT reacT = [] →
      calculate_prr_signals drugT reacT demoT mc = [] ∧
      calculate_prr drugT reacT demoT mc = Except.error "KeyError: prr") ∧
    (appEmitted drugT reacT demoT 20 30 mc (13/10) (3/2) = [] →
      calculate_prr_signals drugT reacT demoT mc = []) ∧
    (demoEmitted drugT reacT demoT 50 100 mc 2 4 = [] →
      calculate_prr drugT reacT demoT mc = Except.error "KeyError: prr") := by
  have happ : appEmitted drugT reacT demoT 20 30 mc (13/10) (3/2) = [] →
      calculate_prr_signals drugT reacT demoT mc = [] := by
    intro hE
    unfold calculate_prr_signals calculate_prr_signalsP
    rw [hE]
    rfl
  have hdemo : demoEmitted drugT reacT demoT 50 100 mc 2 4 = [] →
      calculate_prr drugT reacT demoT mc = Except.error "KeyError: prr" := by
    intro hE
    unfold calculate_prr calculate_prrP
    rw [hE]
    rfl
  refine ⟨fun hco => ?_, happ, hdemo⟩
  have htopD : ∀ k, topDrugsOf drugT reacT k = [] := by
    intro k
    unfold topDrugsOf valueCountsDesc firstAppearance
    rw [hco]
    simp [stableSortAsc]
  constructor
  · refine happ ?_
    unfold appEmitted
    rw [htopD 20]
    rfl
  · refine hdemo ?_
    unfold demoEmitted
    rw [htopD 50]
    rfl

/-- Claim C4 (witness for the amended statement). A concrete empty snapshot:
the co-occurrence table is empty, the app engine returns the empty set, the
demo engine raises. -/
theorem C4_amended_witness :
    coOccurrence ([] : List DrugRow) ([] : List ReacRow) = [] ∧
    calculate_prr_signals [] [] c4demo 3 = [] ∧
    calculate_prr [] [] c4demo 3 = Except.error "KeyError: prr" := by
  have h := (C4_amended [] [] c4demo 3).1 (by rfl)
  exact ⟨rfl, h.1, h.2⟩

/-- Claim C5 (counterexample). On this snapshot the sorted output of the
app.py engine contains two adjacent signals with equal PRR 3 whose case
counts are 2 then 3: the tie is not broken by case count descending, so the
claimed ordering fails. The tie order is the reverse of the emission order,
as the pandas descending sort reverses its stable ascending argsort. -/
theorem C5_counterexample :
    (calculate_prr_signals c5drug c5reac c5demo 2).map sigProj =
      [("D2", "S", 13/3, 2), ("D1", "R1", 3, 2), ("D2", "R2", 3, 3)] ∧
    ¬ List.Pairwise claimTie ((calculate_prr_signals c5drug c5reac c5demo 2).map sigProj) := by
  have h : (calculate_prr_signals c5drug c5reac c5demo 2).map sigProj =
      [("D2", "S", 13/3, 2), ("D1", "R1", 3, 2), ("D2", "R2", 3, 3)] := by
    with_unfolding_all decide
  refine ⟨h, ?_⟩
  rw [h]
  with_unfolding_all decide

/-- Claim C5 (amended). The emitted signal sequence is sorted by PRR
descending, for every snapshot, scope and thresholds; but ties on PRR are not
broken by case count: they appear in reverse emission order (the pandas sort
on the single prr key reverses a stable ascending argsort), and the sort key
involves no secondary column. -/
theorem C5_amended (drugT : List DrugRow) (reacT : List ReacRow)
    (demoT : List DemoRow) (N M mc : Nat) (pThr cThr : ℚ) :
    List.Pairwise (fun s t : Signal => t.prr ≤ s.prr)
      (calculate_prr_signalsP drugT reacT demoT N M mc pThr cThr) := by
  unfold calculate_prr_signalsP
  by_cases hE : (appEmitted drugT reacT demoT N M mc pThr cThr).isEmpty
  · rw [if_pos hE]
    exact List.Pairwise.nil
  · rw [if_neg hE]
    unfold pandasSortDesc
    rw [List.pairwise_reverse]
    have hs := @pairwise_stableSortAsc Signal prrLe
      (fun a b c hab hbc => by
        simp only [prrLe, decide_eq_true_eq] at hab hbc ⊢
        exact le_trans hab hbc)
      (fun a b => by
        simp only [prrLe, decide_eq_true_eq]
        exact le_total a.prr b.prr)
      (appEmitted drugT reacT demoT N M mc pThr cThr)
    exact hs.imp fun hab => by
      simpa [prrLe, decide_eq_true_eq] using hab

/-- Claim C6 (counterexample). Same snapshot, same scope, same thresholds:
the aggregate-map engine and the scan engine disagree. The contingency tables
differ in the d cell (5 against 3 for the pair (D, R), since the Case count 8
differs from the co-occurrence row count 10), the app engine emits two signals
with PRR 15, and the scan engine emits a single signal with PRR 9. -/
theorem C6_counterexample :
    appCells (coOccurrence c6drug c6reac) "D" "R" ≠
      demoCells (coOccurrence c6drug c6reac) c6demo8.length "D" "R" ∧
    (calculate_prr_signalsP c6drug c6reac c6demo8 20 30 2 (13/10) (3/2)).map sigProj =
      [("D", "R", 15, 3), ("E", "S", 15, 5)] ∧
    calculate_prrP c6drug c6reac c6demo8 20 30 2 (13/10) (3/2) =
      Except.ok [{ drug := "D", reaction := "R", prr := 9, chi2 := 2, cases := 3,
                   signal_strength := "Strong" }] := by
  refine ⟨by with_unfolding_all decide, by with_unfolding_all decide, ?_⟩
  with_unfolding_all rfl

/-- Claim C6 (amended). When the Case-table row count equals the
co-occurrence row count, the two variants build identical contingency tables
for every pair and emit identical signal lists with any common scope and
thresholds; whenever the Case count differs from the co-occurrence count the
d cells (and with them PRR, chi-square and the signal sets) can differ, as
the counterexample shows. Even with equal totals the demo variant still
errors instead of returning an empty set when nothing is emitted. -/
theorem C6_amended (drugT : List DrugRow) (reacT : List ReacRow)
    (demoT : List DemoRow) (N M mc : Nat) (pThr cThr : ℚ)
    (hn : demoT.length = (coOccurrence drugT reacT).length) :
    (∀ dr rx, demoCells (coOccurrence drugT reacT) demoT.length dr rx =
      appCells (coOccurrence drugT reacT) dr rx) ∧
    demoEmitted drugT reacT demoT N M mc pThr cThr =
      appEmitted drugT reacT demoT N M mc pThr cThr ∧
    (appEmitted drugT reacT demoT N M mc pThr cThr ≠ [] →
      calculate_prrP drugT reacT demoT N M mc pThr cThr =
        Except.ok (calculate_prr_signalsP drugT reacT demoT N M mc pThr cThr)) := by
  have hemit : demoEmitted drugT reacT demoT N M mc pThr cThr =
      appEmitted drugT reacT demoT N M mc pThr cThr := by
    unfold demoEmitted appEmitted
    exact signalsFor_eq _ _ _ _ _ _ _ hn
  refine ⟨fun dr rx => demoCells_eq_appCells _ _ dr rx hn, hemit, fun hne => ?_⟩
  unfold calculate_prrP calculate_prr_signalsP
  rw [hemit, List.isEmpty_eq_false.mpr hne]
  rfl

/-- Claim C6 (witness for the amended statement). The ten-case snapshot over
the same drug and reaction tables has as many cases as co-occurrence rows;
there the cells agree and the scan engine returns exactly the sorted signal
list of the aggregate-map engine. -/
theorem C6_amended_witness :
    c6demo10.length = (coOccurrence c6drug c6reac).length ∧
    demoCells (coOccurrence c6drug c6reac) c6demo10.length "D" "R" =
      appCells (coOccurrence c6drug c6reac) "D" "R" ∧
    calculate_prrP c6drug c6reac c6demo10 20 30 2 (13/10) (3/2) =
      Except.ok (calculate_prr_signalsP c6drug c6reac c6demo10 20 30 2 (13/10) (3/2)) := by
  have h := C6_amended c6drug c6reac c6demo10 20 30 2 (13/10) (3/2) (by rfl)
  exact ⟨by rfl, h.1 "D" "R", h.2.2 (by with_unfolding_all decide)⟩

/-- Claim C7. A pair whose co-occurrence count is below the minimum-case
threshold never appears in the output of either engine, whatever its PRR or
chi-square would have been: every emitted signal passed the early skip, which
the source applies before the remaining cells are computed. -/
theorem C7_min_cases_filter (drugT : List DrugRow) (reacT : List ReacRow)
    (demoT : List DemoRow) (N M mc : Nat) (pThr cThr : ℚ) :
    ((calculate_prr_signalsP drugT reacT demoT N M mc pThr cThr).all fun s =>
      mc ≤ pairCount (coOccurrence drugT reacT) s.drug s.reaction) = true ∧
    allOk (calculate_prrP drugT reacT demoT N M mc pThr cThr)
      (fun s => mc ≤ scanA (coOccurrence drugT reacT) s.drug s.reaction) = true := by
  constructor
  · rw [List.all_eq_true]
    intro s hs
    unfold calculate_prr_signalsP at hs
    by_cases hE : (appEmitted drugT reacT demoT N M mc pThr cThr).isEmpty
    · rw [if_pos hE] at hs
      cases hs
    · rw [if_neg hE] at hs
      unfold pandasSortDesc at hs
      rw [List.mem_reverse, mem_stableSortAsc] at hs
      unfold appEmitted at hs
      simpa [decide_eq_true_eq] using mem_appSignalsFor hs
  · unfold allOk calculate_prrP
    by_cases hE : (demoEmitted drugT reacT demoT N M mc pThr cThr).isEmpty
    · rw [if_pos hE]
    · rw [if_neg hE]
      rw [List.all_eq_true]
      intro s hs
      unfold pandasSortDesc at hs
      rw [List.mem_reverse, mem_stableSortAsc] at hs
      unfold demoEmitted at hs
      simpa [decide_eq_true_eq] using mem_demoSignalsFor hs

/-- Claim C9. On a daily series with fewer than 2 distinct days, or with zero
sample variance, the anomaly detector flags no day, and every z-score is the
NaN value none (pandas std of a short series is NaN; the division of the
exact zero numerator by the zero standard deviation is NaN); the detector is
a total function, so no fault is raised. -/
theorem C9_degenerate_series (demoT : List DemoRow)
    (h : (dailyCounts demoT).length < 2 ∨ sampleVar (countsSeries demoT) = some 0) :
    ((detect_anomalies demoT).all fun e => e.2.2 == false) = true ∧
    ((countsSeries demoT).all fun c => (zScoreSq (countsSeries demoT) c).isNone) = true := by
  have hz : ∀ c : Nat, zScoreSq (countsSeries demoT) c = none := by
    intro c
    rcases h with h | h
    · have hlen : (countsSeries demoT).length < 2 := by
        simpa [countsSeries] using h
      unfold zScoreSq sampleVar
      rw [if_pos hlen]
      rfl
    · unfold zScoreSq
      rw [h]
      simp [npDiv]
  constructor
  · rw [List.all_eq_true]
    intro e he
    unfold detect_anomalies at he
    rw [List.mem_map] at he
    obtain ⟨p, _, rfl⟩ := he
    simp [isAnomalyDay, hz]
  · rw [List.all_eq_true]
    intro c _
    simp [hz]

/-- Claim C9 (witness). Two cases on two distinct days, one report each: the
daily series has sample variance zero and the detector flags nothing. -/
theorem C9_degenerate_series_witness :
    sampleVar (countsSeries c9demo) = some 0 ∧
    ((detect_anomalies c9demo).all fun e => e.2.2 == false) = true := by
  have h := C9_degenerate_series c9demo (Or.inr (by with_unfolding_all decide))
  exact ⟨by with_unfolding_all decide, h.1⟩

end FAERS
